import Mathlib

/-!
A shallow embedding of the Olympic-athlete-events ETL pipeline
(`extract_data`, `transform_data`, `load_data`, plus the scheduling wiring)
and proofs of the specification's claims about it.

The pipeline's three stages are plain Python functions over pandas
DataFrames and a sqlite3 connection.  DataFrames are modelled as Lean
lists of records; the intermediate CSV artifact is modelled as a list of
rows, each row a list of cells (strings); the relational store is a
record of two optional tables.  Numeric cells are rendered to and parsed
from decimal character lists so that the extract stage's CSV round trip
is a real (not assumed) property.
-/

namespace AirflowEtl

/-- Little-endian decimal digits of `n`, written with explicit structural
fuel so the definition is kernel-reducible.  Fuel `n` always suffices
because the argument is divided by ten at each step. -/
def decDigitsAux : Nat → Nat → List Nat
  | 0, _ => []
  | fuel + 1, n => if n = 0 then [] else n % 10 :: decDigitsAux fuel (n / 10)

/-- Little-endian decimal digits of `n` (empty exactly for `n = 0`). -/
def decDigits (n : Nat) : List Nat := decDigitsAux n n

/-- Numeric value of a little-endian decimal digit list. -/
def decValue (ds : List Nat) : Nat := ds.foldr (fun d a => a * 10 + d) 0

theorem decValue_decDigitsAux (fuel : Nat) :
    ∀ n, n ≤ fuel → decValue (decDigitsAux fuel n) = n := by
  induction fuel with
  | zero =>
    intro n h
    have hn : n = 0 := by omega
    subst hn
    simp [decDigitsAux, decValue]
  | succ fuel ih =>
    intro n h
    by_cases h0 : n = 0
    · subst h0
      simp [decDigitsAux, decValue]
    · have h1 : n / 10 ≤ fuel := by omega
      have h2 := ih (n / 10) h1
      simp only [decValue] at h2
      simp only [decDigitsAux, if_neg h0, decValue, List.foldr_cons, h2]
      omega

theorem decValue_decDigits (n : Nat) : decValue (decDigits n) = n :=
  decValue_decDigitsAux n n le_rfl

theorem decDigitsAux_lt_ten (fuel : Nat) :
    ∀ n d, d ∈ decDigitsAux fuel n → d < 10 := by
  induction fuel with
  | zero => intro n d hd; simp [decDigitsAux] at hd
  | succ fuel ih =>
    intro n d hd
    by_cases h0 : n = 0
    · subst h0; simp [decDigitsAux] at hd
    · simp only [decDigitsAux, if_neg h0, List.mem_cons] at hd
      rcases hd with hd | hd
      · omega
      · exact ih (n / 10) d hd

theorem decDigits_lt_ten (n : Nat) : ∀ d ∈ decDigits n, d < 10 :=
  fun d hd => decDigitsAux_lt_ten n n d hd

theorem decDigits_ne_nil (n : Nat) (h : n ≠ 0) : decDigits n ≠ [] := by
  obtain ⟨m, rfl⟩ : ∃ m, n = m + 1 := ⟨n - 1, by omega⟩
  simp [decDigits, decDigitsAux]

/-- The character for a single decimal digit. -/
def digitChar (d : Nat) : Char := Char.ofNat (48 + d)

/-- Decimal rendering of a natural number as pandas writes it into a CSV
cell (most significant digit first, `"0"` for zero). -/
def renderNat (n : Nat) : List Char :=
  if n = 0 then ['0'] else ((decDigits n).map digitChar).reverse

/-- Accumulate a most-significant-first digit character list into a value. -/
def parseDigitsVal (cs : List Char) : Nat :=
  cs.foldl (fun a c => a * 10 + (c.toNat - 48)) 0

/-- Parse a CSV cell as a natural number: nonempty and all digits,
mirroring pandas' numeric type inference for such a column. -/
def parseNatChars (cs : List Char) : Option Nat :=
  if cs = [] then none
  else if cs.all Char.isDigit then some (parseDigitsVal cs) else none

theorem digitChar_isDigit : ∀ d, d < 10 → (digitChar d).isDigit = true := by decide

theorem digitChar_toNat : ∀ d, d < 10 → (digitChar d).toNat - 48 = d := by decide

theorem parseDigitsVal_render (ds : List Nat) (h : ∀ d ∈ ds, d < 10) :
    parseDigitsVal ((ds.map digitChar).reverse) = decValue ds := by
  simp only [parseDigitsVal, List.foldl_reverse]
  induction ds with
  | nil => simp [decValue]
  | cons d ds ih =>
    have hd : d < 10 := h d (List.mem_cons_self d ds)
    have hrest : ∀ x ∈ ds, x < 10 := fun x hx => h x (List.mem_cons_of_mem d hx)
    simp only [List.map_cons, List.foldr_cons, decValue, ih hrest, digitChar_toNat d hd]

theorem render_all_digits (ds : List Nat) (h : ∀ d ∈ ds, d < 10) :
    ((ds.map digitChar).reverse.all Char.isDigit) = true := by
  rw [List.all_eq_true]
  intro c hc
  rw [List.mem_reverse, List.mem_map] at hc
  obtain ⟨d, hd, rfl⟩ := hc
  exact digitChar_isDigit d (h d hd)

theorem parseNatChars_renderNat (n : Nat) : parseNatChars (renderNat n) = some n := by
  by_cases h0 : n = 0
  · subst h0; decide
  · have hne : ((decDigits n).map digitChar).reverse ≠ [] := by
      intro hcontra
      rw [List.reverse_eq_nil_iff, List.map_eq_nil_iff] at hcontra
      exact decDigits_ne_nil n h0 hcontra
    rw [renderNat, if_neg h0, parseNatChars, if_neg hne,
      if_pos (render_all_digits (decDigits n) (decDigits_lt_ten n)),
      parseDigitsVal_render (decDigits n) (decDigits_lt_ten n), decValue_decDigits]

/-! ## Data model

`RawRecord` models one line of `athlete_events_2006_2016.jsonl` as pandas
reads it: the four attributes the pipeline uses (`year`, `season`, `noc`,
`medal`, with an absent medal as `none`, pandas' NaN) plus the remaining
unused columns, carried as opaque cell texts in `extras`. -/

structure RawRecord where
  year : Nat
  season : String
  noc : String
  medal : Option String
  extras : List String
deriving DecidableEq

/-- A row of the intermediate CSV artifact: one cell per column.  The
header row and comma framing are handled by the CSV library on both
sides and are not part of the model; a cell is the text pandas writes
for the value (decimal digits for the integer `year`, the string itself
for `season`/`noc`, and the empty cell for NaN/missing `medal`). -/
def recordToCsvRow (r : RawRecord) : List String :=
  String.mk (renderNat r.year) :: r.season :: r.noc ::
    (match r.medal with
     | none => ""
     | some m => m) :: r.extras

/-- Reading one CSV row back as pandas `read_csv` types it: the year cell
must be numeric, an empty `season`/`noc` cell would be NaN (not a
string, hence unrepresentable as a record — `none`), and an empty medal
cell is the absent medal. -/
def rowToRecord (row : List String) : Option RawRecord :=
  match row with
  | yc :: sc :: nc :: mc :: rest =>
    match parseNatChars yc.data with
    | none => none
    | some y =>
      if sc = "" then none
      else if nc = "" then none
      else some ⟨y, sc, nc, if mc = "" then none else some mc, rest⟩
  | _ => none

/-- Read a whole CSV artifact back into records. -/
def readCsvTable (rows : List (List String)) : Option (List RawRecord) :=
  match rows with
  | [] => some []
  | row :: rest =>
    match rowToRecord row, readCsvTable rest with
    | some r, some rs => some (r :: rs)
    | _, _ => none

/-- Well-formedness of an input record: its string cells survive the CSV
round trip (a nonempty season and country code, and no medal value that
is the empty string, which the CSV cell could not distinguish from an
absent medal). -/
def wfRecord (r : RawRecord) : Prop :=
  r.season ≠ "" ∧ r.noc ≠ "" ∧ r.medal ≠ some ""

instance (r : RawRecord) : Decidable (wfRecord r) := by
  unfold wfRecord; infer_instance

/-- `extract_data`: reads the JSON-lines file (`input`, already a list of
records exactly as `pd.read_json(file_path, lines=True)` produces it)
and writes every record, unchanged and in order, to the intermediate
CSV artifact `extracted_data.csv`.  No filtering, validation or
deduplication happens here. -/
def extract_data (input : List RawRecord) : List (List String) :=
  input.map recordToCsvRow

theorem rowToRecord_recordToCsvRow (r : RawRecord) (h : wfRecord r) :
    rowToRecord (recordToCsvRow r) = some r := by
  obtain ⟨hs, hn, hm⟩ := h
  rcases r with ⟨y, sc, nc, mc, ex⟩
  simp only [recordToCsvRow, rowToRecord]
  have hy : parseNatChars (String.mk (renderNat y)).data = some y := by
    show parseNatChars (renderNat y) = some y
    exact parseNatChars_renderNat y
  rw [hy]
  simp only [if_neg hs, if_neg hn]
  cases mc with
  | none => simp
  | some m =>
    have hm2 : m ≠ "" := fun hcontra => hm (by rw [hcontra])
    simp [if_neg hm2]

theorem readCsvTable_extract (input : List RawRecord)
    (h : ∀ r ∈ input, wfRecord r) :
    readCsvTable (extract_data input) = some input := by
  induction input with
  | nil => rfl
  | cons r rest ih =>
    have hr := h r (List.mem_cons_self r rest)
    have hrest := ih (fun x hx => h x (List.mem_cons_of_mem r hx))
    simp only [extract_data, List.map_cons] at hrest ⊢
    simp only [readCsvTable, rowToRecord_recordToCsvRow r hr]
    rw [hrest]

/-! ## Transformer

`transform_data` reads `extracted_data.csv`, keeps the four columns
`['year', 'season', 'noc', 'medal']`, drops rows whose `medal` is NaN
(`dropna(subset=['medal'])`), then

  * `groupby(['year', 'season', 'noc']).size()` → one `MedalCount` row
    per distinct key holding the group's row count, and
  * `groupby(['year', 'season'])['noc'].nunique()` → one `CountryCount`
    row per distinct key holding the number of distinct `noc` values in
    the group.

A groupby is modelled as the deduplicated key list paired with the
per-key filter of the frame; pandas sorts group keys, while the model
keeps them in a deduplicated traversal order — the claims are about the
set of output rows, which is the same. -/

/-- The projection `df[['year', 'season', 'noc', 'medal']]`. -/
structure ProjRecord where
  year : Nat
  season : String
  noc : String
  medal : Option String
deriving DecidableEq

def projectRecord (r : RawRecord) : ProjRecord :=
  ⟨r.year, r.season, r.noc, r.medal⟩

/-- One row of `transformed_medal_counts.csv`. -/
structure MedalCountRow where
  year : Nat
  season : String
  noc : String
  medalCount : Nat
deriving DecidableEq

/-- One row of `transformed_country_counts.csv`. -/
structure CountryCountRow where
  year : Nat
  season : String
  countriesWithMedals : Nat
deriving DecidableEq

/-- `df_filtered`: project to the four columns and drop absent medals. -/
def dfFiltered (df : List RawRecord) : List ProjRecord :=
  (df.map projectRecord).filter (fun r => decide (r.medal ≠ none))

def medalKey (r : ProjRecord) : Nat × String × String :=
  (r.year, r.season, r.noc)

def seasonKey (r : ProjRecord) : Nat × String :=
  (r.year, r.season)

/-- `medal_counts`: `groupby(['year','season','noc']).size()`. -/
def medalCountsOf (df : List RawRecord) : List MedalCountRow :=
  (((dfFiltered df).map medalKey).dedup).map (fun k =>
    ⟨k.1, k.2.1, k.2.2,
      ((dfFiltered df).filter (fun r => decide (medalKey r = k))).length⟩)

/-- `country_counts`: `groupby(['year','season'])['noc'].nunique()`. -/
def countryCountsOf (df : List RawRecord) : List CountryCountRow :=
  (((dfFiltered df).map seasonKey).dedup).map (fun k =>
    ⟨k.1, k.2,
      ((((dfFiltered df).filter (fun r => decide (seasonKey r = k))).map
        (fun r => r.noc)).dedup).length⟩)

/-- `transform_data`: both aggregate artifacts from the intermediate
frame. -/
def transform_data (df : List RawRecord) : List MedalCountRow × List CountryCountRow :=
  (medalCountsOf df, countryCountsOf df)

/-! ### Specification-side counting functions

These re-state, on the raw input, the quantities the spec's words name:
"the number of medal-present records with that key" and "the number of
distinct noc values among medal-present records with that
(year, season)".  They are the reference side of the refinement claims
C1, C4 and C8. -/

/-- Number of input records that carry a medal and have the given
(year, season, noc) key. -/
def medalPresentCount (df : List RawRecord) (y : Nat) (s n : String) : Nat :=
  (df.filter (fun r =>
    decide (r.medal ≠ none ∧ r.year = y ∧ r.season = s ∧ r.noc = n))).length

/-- The distinct `noc` values among medal-present input records with the
given (year, season). -/
def medalPresentNocs (df : List RawRecord) (y : Nat) (s : String) : List String :=
  ((df.filter (fun r =>
    decide (r.medal ≠ none ∧ r.year = y ∧ r.season = s))).map RawRecord.noc).dedup

/-- Number of distinct countries with at least one medal in the given
(year, season). -/
def distinctNocCount (df : List RawRecord) (y : Nat) (s : String) : Nat :=
  (medalPresentNocs df y s).length

/-! ### Transformer helper lemmas -/

theorem filter_dfFiltered (df : List RawRecord) (q : ProjRecord → Bool) :
    (dfFiltered df).filter q =
      (df.filter (fun r => q (projectRecord r) && decide (r.medal ≠ none))).map
        projectRecord := by
  unfold dfFiltered
  rw [List.filter_filter, List.filter_map]
  rfl

theorem medalGroup_length (df : List RawRecord) (y : Nat) (s n : String) :
    ((dfFiltered df).filter (fun r => decide (medalKey r = (y, s, n)))).length =
      medalPresentCount df y s n := by
  rw [filter_dfFiltered, List.length_map, medalPresentCount]
  congr 1
  apply List.filter_congr
  intro r _
  simp only [medalKey, projectRecord, Prod.mk.injEq, ← Bool.decide_and, decide_eq_decide]
  tauto

theorem seasonGroup_nocs (df : List RawRecord) (y : Nat) (s : String) :
    (((dfFiltered df).filter (fun r => decide (seasonKey r = (y, s)))).map
        (fun r => r.noc)) =
      (df.filter (fun r =>
        decide (r.medal ≠ none ∧ r.year = y ∧ r.season = s))).map RawRecord.noc := by
  rw [filter_dfFiltered, List.map_map]
  rw [List.filter_congr (q := fun r =>
    decide (r.medal ≠ none ∧ r.year = y ∧ r.season = s))]
  · rfl
  · intro r _
    simp only [seasonKey, projectRecord, Prod.mk.injEq, ← Bool.decide_and, decide_eq_decide]
    tauto

theorem mem_medalCountsOf (df : List RawRecord) (y : Nat) (s n : String) (c : Nat) :
    MedalCountRow.mk y s n c ∈ medalCountsOf df ↔
      ((y, s, n) ∈ (dfFiltered df).map medalKey ∧
        c = ((dfFiltered df).filter
          (fun r => decide (medalKey r = (y, s, n)))).length) := by
  unfold medalCountsOf
  rw [List.mem_map]
  constructor
  · rintro ⟨k, hk, heq⟩
    rcases k with ⟨k1, k2, k3⟩
    simp only [MedalCountRow.mk.injEq] at heq
    obtain ⟨h1, h2, h3, h4⟩ := heq
    subst h1; subst h2; subst h3
    exact ⟨List.mem_dedup.mp hk, h4.symm⟩
  · rintro ⟨hmem, rfl⟩
    exact ⟨(y, s, n), List.mem_dedup.mpr hmem, rfl⟩

theorem mem_medalKeys_iff_pos (df : List RawRecord) (y : Nat) (s n : String) :
    (y, s, n) ∈ (dfFiltered df).map medalKey ↔ 0 < medalPresentCount df y s n := by
  rw [← medalGroup_length]
  constructor
  · rw [List.mem_map]
    rintro ⟨r, hr, hk⟩
    exact List.length_pos_iff_exists_mem.mpr
      ⟨r, List.mem_filter.mpr ⟨hr, by simp [hk]⟩⟩
  · intro hpos
    obtain ⟨a, ha⟩ := List.length_pos_iff_exists_mem.mp hpos
    rw [List.mem_filter] at ha
    exact List.mem_map.mpr ⟨a, ha.1, by simpa using ha.2⟩

theorem mem_countryCountsOf (df : List RawRecord) (y : Nat) (s : String) (v : Nat) :
    CountryCountRow.mk y s v ∈ countryCountsOf df ↔
      ((y, s) ∈ (dfFiltered df).map seasonKey ∧
        v = ((((dfFiltered df).filter (fun r => decide (seasonKey r = (y, s)))).map
          (fun r => r.noc)).dedup).length) := by
  unfold countryCountsOf
  rw [List.mem_map]
  constructor
  · rintro ⟨k, hk, heq⟩
    rcases k with ⟨k1, k2⟩
    simp only [CountryCountRow.mk.injEq] at heq
    obtain ⟨h1, h2, h3⟩ := heq
    subst h1; subst h2
    exact ⟨List.mem_dedup.mp hk, h3.symm⟩
  · rintro ⟨hmem, rfl⟩
    exact ⟨(y, s), List.mem_dedup.mpr hmem, rfl⟩

theorem countryGroup_dedup_length (df : List RawRecord) (y : Nat) (s : String) :
    ((((dfFiltered df).filter (fun r => decide (seasonKey r = (y, s)))).map
        (fun r => r.noc)).dedup).length = distinctNocCount df y s := by
  unfold distinctNocCount medalPresentNocs
  rw [seasonGroup_nocs]

theorem mem_seasonKeys_iff_pos (df : List RawRecord) (y : Nat) (s : String) :
    (y, s) ∈ (dfFiltered df).map seasonKey ↔ 0 < distinctNocCount df y s := by
  rw [← countryGroup_dedup_length]
  constructor
  · rw [List.mem_map]
    rintro ⟨r, hr, hk⟩
    have hmem : r.noc ∈ ((dfFiltered df).filter
        (fun a => decide (seasonKey a = (y, s)))).map (fun a => a.noc) :=
      List.mem_map.mpr ⟨r, List.mem_filter.mpr ⟨hr, by simp [hk]⟩, rfl⟩
    exact List.length_pos_iff_exists_mem.mpr ⟨r.noc, List.mem_dedup.mpr hmem⟩
  · intro hpos
    obtain ⟨x, hx⟩ := List.length_pos_iff_exists_mem.mp hpos
    rw [List.mem_dedup, List.mem_map] at hx
    obtain ⟨r, hr, _⟩ := hx
    rw [List.mem_filter] at hr
    exact List.mem_map.mpr ⟨r, hr.1, by simpa using hr.2⟩

/-! ## Loader

`load_data` reads the two aggregate CSVs, opens a sqlite3 connection to
`countries_medals.db`, and then, line by line:

  1. `connection.execute(create_medal_table_query)` — `CREATE TABLE IF
     NOT EXISTS MedalCounts (... PRIMARY KEY (year, season, noc))`;
  2. `medal_counts.to_sql('MedalCounts', connection,
     if_exists='replace', index=False)` — pandas `to_sql` in replace
     mode on a DBAPI connection drops the existing table, recreates it
     from the frame's dtypes (without any primary-key declaration),
     inserts the rows, and commits the connection (pandas
     `SQLiteDatabase.run_transaction` commits after the insert, which
     also commits the pending CREATE/DROP of the same connection);
  3. a second string literal is assigned to `create_medal_table_query`
     (rebinding the first name — a dead store);
  4. `connection.execute(create_country_table_query)` — the name
     `create_country_table_query` is never defined anywhere, so Python
     raises `NameError` here, before any statement for `CountryCounts`
     is executed;
  5. the remaining lines (`country_counts.to_sql(...)`,
     `connection.commit()`, `connection.close()`) are never reached.

The store is modelled as the committed contents of the database file;
each table carries whether its live schema declares a primary key. -/

structure SqlTable (ρ : Type) where
  hasDeclaredPrimaryKey : Bool
  rows : List ρ
deriving DecidableEq

structure Store where
  medalCounts : Option (SqlTable MedalCountRow)
  countryCounts : Option (SqlTable CountryCountRow)
deriving DecidableEq

inductive LoadError where
  | nameErrorUndefined (name : String)
deriving DecidableEq

/-- Outcome of one `load_data` call: whether it raised, the committed
contents of the database afterwards, and whether the sqlite connection
it opened was still open when the call exited. -/
structure LoadResult where
  outcome : Except LoadError Unit
  store : Store
  connectionOpen : Bool

/-- `CREATE TABLE IF NOT EXISTS MedalCounts (... PRIMARY KEY (year,
season, noc))`: creates the table with its declared primary key only
when it does not already exist. -/
def createMedalTableIfNotExists (db : Store) : Store :=
  { db with
    medalCounts := some (db.medalCounts.getD { hasDeclaredPrimaryKey := true, rows := [] }) }

/-- `medal_counts.to_sql('MedalCounts', connection, if_exists='replace',
index=False)`: drop the table if present, recreate it from the frame
(no primary key), insert the frame's rows, and commit. -/
def toSqlReplaceMedalCounts (rows : List MedalCountRow) (db : Store) : Store :=
  { db with medalCounts := some { hasDeclaredPrimaryKey := false, rows := rows } }

/-- `load_data`, line by line.  `medalRows` and `countryRows` are the
frames read from the two aggregate CSVs; `db` is the committed state of
`countries_medals.db` before the call.  `countryRows` is read but never
written — exactly as in the source, where the run raises before the
`country_counts.to_sql` line. -/
def load_data (medalRows : List MedalCountRow) (countryRows : List CountryCountRow)
    (db : Store) : LoadResult :=
  -- connection = sqlite3.connect('countries_medals.db')
  let s1 := createMedalTableIfNotExists db
  -- connection.execute(create_medal_table_query)
  let s2 := toSqlReplaceMedalCounts medalRows s1
  -- medal_counts.to_sql(..., if_exists='replace'): replaces and commits
  -- connection.execute(create_country_table_query): NameError — the
  -- name was never bound (the second CREATE string was assigned to
  -- create_medal_table_query instead); countryRows are never written,
  -- no later line (commit/close) runs.
  { outcome := Except.error (LoadError.nameErrorUndefined "create_country_table_query"),
    store := s2,
    connectionOpen := true }

/-- One scheduled occurrence of the DAG `etl_pipeline`: the strict chain
extract_task >> transform_task >> load_task on one input file, returning
the committed database contents afterwards.  If an earlier stage fails
(here: the intermediate CSV does not parse back), downstream tasks do
not run and the store is untouched. -/
def runPipeline (input : List RawRecord) (db : Store) : Store :=
  match readCsvTable (extract_data input) with
  | none => db
  | some df => (load_data (transform_data df).1 (transform_data df).2 db).store

/-- A store state in which every existing destination table still has
its declared primary key. -/
def storeHasDeclaredPrimaryKeys (db : Store) : Bool :=
  db.medalCounts.all (fun t => t.hasDeclaredPrimaryKey) &&
    db.countryCounts.all (fun t => t.hasDeclaredPrimaryKey)

/-! ### Key uniqueness and cross-consistency helpers -/

theorem medalCountsOf_keys_nodup (df : List RawRecord) :
    ((medalCountsOf df).map (fun m => (m.year, m.season, m.noc))).Nodup := by
  unfold medalCountsOf
  rw [List.map_map]
  apply List.Nodup.map_on
  · intro k1 _ k2 _ h
    rcases k1 with ⟨a1, b1, c1⟩
    rcases k2 with ⟨a2, b2, c2⟩
    simpa using h
  · exact List.nodup_dedup _

theorem countryCountsOf_keys_nodup (df : List RawRecord) :
    ((countryCountsOf df).map (fun m => (m.year, m.season))).Nodup := by
  unfold countryCountsOf
  rw [List.map_map]
  apply List.Nodup.map_on
  · intro k1 _ k2 _ h
    rcases k1 with ⟨a1, b1⟩
    rcases k2 with ⟨a2, b2⟩
    simpa using h
  · exact List.nodup_dedup _

/-- The `noc` column of the MedalCount rows with a given (year, season),
expressed on the key list of the grouping. -/
theorem medalCounts_nocs_of_season (df : List RawRecord) (y : Nat) (s : String) :
    ((medalCountsOf df).filter (fun m => decide (m.year = y ∧ m.season = s))).map
        (fun m => m.noc) =
      ((((dfFiltered df).map medalKey).dedup).filter
        (fun k => decide (k.1 = y ∧ k.2.1 = s))).map (fun k => k.2.2) := by
  unfold medalCountsOf
  rw [List.filter_map, List.map_map]
  rfl

theorem medalCounts_nocs_nodup (df : List RawRecord) (y : Nat) (s : String) :
    (((((dfFiltered df).map medalKey).dedup).filter
      (fun k => decide (k.1 = y ∧ k.2.1 = s))).map (fun k => k.2.2)).Nodup := by
  apply List.Nodup.map_on
  · intro k1 h1 k2 h2 hnoc
    rw [List.mem_filter] at h1 h2
    have e1 := h1.2
    have e2 := h2.2
    simp only [decide_eq_true_eq] at e1 e2
    rcases k1 with ⟨a1, b1, c1⟩
    rcases k2 with ⟨a2, b2, c2⟩
    simp_all
  · exact List.Nodup.filter _ (List.nodup_dedup _)

theorem mem_medalCounts_nocs (df : List RawRecord) (y : Nat) (s x : String) :
    x ∈ ((((dfFiltered df).map medalKey).dedup).filter
        (fun k => decide (k.1 = y ∧ k.2.1 = s))).map (fun k => k.2.2) ↔
      (y, s, x) ∈ (dfFiltered df).map medalKey := by
  rw [List.mem_map]
  constructor
  · rintro ⟨k, hk, rfl⟩
    rw [List.mem_filter] at hk
    have hmem := hk.1
    rw [List.mem_dedup] at hmem
    have hys := hk.2
    rcases k with ⟨a, b, c⟩
    simp only [decide_eq_true_eq] at hys
    obtain ⟨hy, hs⟩ := hys
    subst hy
    subst hs
    exact hmem
  · intro hmem
    exact ⟨(y, s, x), List.mem_filter.mpr ⟨List.mem_dedup.mpr hmem, by simp⟩, rfl⟩

theorem mem_medalPresentNocs (df : List RawRecord) (y : Nat) (s x : String) :
    x ∈ medalPresentNocs df y s ↔ 0 < medalPresentCount df y s x := by
  unfold medalPresentNocs medalPresentCount
  rw [List.mem_dedup, List.mem_map]
  constructor
  · rintro ⟨r, hr, rfl⟩
    rw [List.mem_filter] at hr
    have hp := hr.2
    simp only [decide_eq_true_eq] at hp
    exact List.length_pos_iff_exists_mem.mpr
      ⟨r, List.mem_filter.mpr ⟨hr.1, by simp [hp.1, hp.2.1, hp.2.2]⟩⟩
  · intro h
    obtain ⟨r, hr⟩ := List.length_pos_iff_exists_mem.mp h
    rw [List.mem_filter] at hr
    have hp := hr.2
    simp only [decide_eq_true_eq] at hp
    exact ⟨r, List.mem_filter.mpr ⟨hr.1, by simp [hp.1, hp.2.1, hp.2.2.1]⟩, hp.2.2.2⟩

/-- Cross-consistency at the list level: the number of distinct `noc`
values among MedalCount rows of a given (year, season) is
`distinctNocCount`. -/
theorem medalCounts_distinct_nocs (df : List RawRecord) (y : Nat) (s : String) :
    ((((medalCountsOf df).filter (fun m => decide (m.year = y ∧ m.season = s))).map
      (fun m => m.noc)).dedup).length = distinctNocCount df y s := by
  rw [medalCounts_nocs_of_season]
  rw [List.dedup_eq_self.mpr (medalCounts_nocs_nodup df y s)]
  have hnd1 := medalCounts_nocs_nodup df y s
  have hnd2 : (medalPresentNocs df y s).Nodup := List.nodup_dedup _
  have hperm := (List.perm_ext_iff_of_nodup hnd1 hnd2).mpr (fun x => by
    rw [mem_medalCounts_nocs, mem_medalKeys_iff_pos, mem_medalPresentNocs])
  exact hperm.length_eq

/-! ## Example data used by witnesses and counterexamples -/

/-- The spec's scenario input: two USA medal records and one GBR record
with no medal, all for (2012, Summer). -/
def scenarioInput : List RawRecord :=
  [⟨2012, "Summer", "USA", some "Gold", []⟩,
   ⟨2012, "Summer", "USA", some "Silver", []⟩,
   ⟨2012, "Summer", "GBR", none, []⟩]

def sampleDfC1 : List RawRecord := [⟨2014, "Winter", "CAN", some "Gold", []⟩]

def sampleDfC4 : List RawRecord :=
  [⟨2016, "Summer", "BRA", some "Gold", []⟩,
   ⟨2016, "Summer", "ARG", some "Silver", []⟩]

def sampleDfC9 : List RawRecord :=
  [⟨2006, "Winter", "ITA", none, ["Torino"]⟩,
   ⟨2008, "Summer", "CHN", some "Bronze", []⟩]

def sampleMedalRows : List MedalCountRow := [⟨2012, "Summer", "USA", 2⟩]

def sampleCountryRows : List CountryCountRow := [⟨2012, "Summer", 1⟩]

/-- A database holding aggregates from an earlier run, both tables
present with their declared primary keys. -/
def priorStore : Store :=
  { medalCounts :=
      some { hasDeclaredPrimaryKey := true, rows := [⟨2000, "Summer", "AUS", 5⟩] },
    countryCounts :=
      some { hasDeclaredPrimaryKey := true, rows := [⟨2000, "Summer", 10⟩] } }

/-! ## Claims -/

/-- C1: for every input table, the Transformer projects the records to
the four fields year, season, noc, medal, drops records whose medal is
absent, and produces (1) a MedalCount table with one row per distinct
(year, season, noc) whose count is the number of medal-present records
with that key and (2) a CountryCount table with one row per distinct
(year, season) whose value is the number of distinct noc values among
medal-present records with that (year, season). -/
theorem c1_transform_data_correct (df : List RawRecord) :
    (∀ y s n c, MedalCountRow.mk y s n c ∈ (transform_data df).1 ↔
      (0 < medalPresentCount df y s n ∧ c = medalPresentCount df y s n)) ∧
    ((transform_data df).1.map (fun m => (m.year, m.season, m.noc))).Nodup ∧
    (∀ y s v, CountryCountRow.mk y s v ∈ (transform_data df).2 ↔
      (0 < distinctNocCount df y s ∧ v = distinctNocCount df y s)) ∧
    ((transform_data df).2.map (fun m => (m.year, m.season))).Nodup := by
  refine ⟨?_, medalCountsOf_keys_nodup df, ?_, countryCountsOf_keys_nodup df⟩
  · intro y s n c
    rw [show (transform_data df).1 = medalCountsOf df from rfl]
    rw [mem_medalCountsOf, medalGroup_length, mem_medalKeys_iff_pos]
  · intro y s v
    rw [show (transform_data df).2 = countryCountsOf df from rfl]
    rw [mem_countryCountsOf, countryGroup_dedup_length, mem_seasonKeys_iff_pos]

/-- C1 witness: the characterization applied to a one-record table. -/
theorem c1_witness :
    MedalCountRow.mk 2014 "Winter" "CAN" 1 ∈ (transform_data sampleDfC1).1 :=
  ((c1_transform_data_correct sampleDfC1).1 2014 "Winter" "CAN" 1).mpr (by decide)

/-- C2 (code bug): the Loader never completes — every call raises
`NameError` at `connection.execute(create_country_table_query)` because
that name is never defined, and the CountryCounts table is never
created or written. -/
theorem c2_load_data_raises_nameerror (medalRows : List MedalCountRow)
    (countryRows : List CountryCountRow) (db : Store) :
    (load_data medalRows countryRows db).outcome =
      Except.error (LoadError.nameErrorUndefined "create_country_table_query") ∧
    (load_data medalRows countryRows db).store.countryCounts = db.countryCounts :=
  ⟨rfl, rfl⟩

/-- C2 witness: the failure at a concrete input. -/
theorem c2_witness :
    (load_data sampleMedalRows sampleCountryRows priorStore).outcome =
      Except.error (LoadError.nameErrorUndefined "create_country_table_query") :=
  (c2_load_data_raises_nameerror sampleMedalRows sampleCountryRows priorStore).1

/-- C3 counterexample: a run in which the Loader fails (every run does),
yet the previously loaded MedalCounts contents are not preserved — the
replace-mode write had already replaced and committed them. -/
theorem c3_counterexample :
    (∃ e, (load_data sampleMedalRows sampleCountryRows priorStore).outcome =
      Except.error e) ∧
    ¬ ((load_data sampleMedalRows sampleCountryRows priorStore).store.medalCounts =
      priorStore.medalCounts) :=
  ⟨⟨LoadError.nameErrorUndefined "create_country_table_query", rfl⟩, by decide⟩

/-- C3 amended: a failing Loader run leaves CountryCounts exactly as it
was, but MedalCounts has already been replaced with the new aggregate
(and committed by the pandas write) before the failure point — failure
is not atomic with respect to MedalCounts. -/
theorem c3_amended_failure_effect (medalRows : List MedalCountRow)
    (countryRows : List CountryCountRow) (db : Store) :
    (load_data medalRows countryRows db).outcome =
      Except.error (LoadError.nameErrorUndefined "create_country_table_query") ∧
    (load_data medalRows countryRows db).store.countryCounts = db.countryCounts ∧
    (load_data medalRows countryRows db).store.medalCounts =
      some { hasDeclaredPrimaryKey := false, rows := medalRows } :=
  ⟨rfl, rfl, rfl⟩

/-- C3 witness: the amended statement at a concrete input. -/
theorem c3_witness :
    (load_data sampleMedalRows sampleCountryRows priorStore).store.countryCounts =
      priorStore.countryCounts :=
  (c3_amended_failure_effect sampleMedalRows sampleCountryRows priorStore).2.1

/-- C4: the CountryCount value for a (year, season) equals the number of
distinct noc values among the MedalCount rows with that (year, season)
computed from the same input — the two aggregates are cross-consistent. -/
theorem c4_cross_consistency (df : List RawRecord) (y : Nat) (s : String) (v : Nat)
    (h : CountryCountRow.mk y s v ∈ (transform_data df).2) :
    v = ((((transform_data df).1.filter
      (fun m => decide (m.year = y ∧ m.season = s))).map (fun m => m.noc)).dedup).length := by
  have hv := ((mem_countryCountsOf df y s v).mp h).2
  rw [countryGroup_dedup_length] at hv
  rw [show (transform_data df).1 = medalCountsOf df from rfl, medalCounts_distinct_nocs]
  exact hv

/-- C4 witness: cross-consistency at a concrete two-country input. -/
theorem c4_witness :
    (2 : Nat) = ((((transform_data sampleDfC4).1.filter
      (fun m => decide (m.year = 2016 ∧ m.season = "Summer"))).map
        (fun m => m.noc)).dedup).length :=
  c4_cross_consistency sampleDfC4 2016 "Summer" 2 (by decide)

/-- C5: running the full pipeline twice in succession on the identical
input leaves the destination tables with exactly the same contents as
running it once. -/
theorem c5_pipeline_idempotent (input : List RawRecord) (db : Store) :
    runPipeline input (runPipeline input db) = runPipeline input db := by
  unfold runPipeline
  cases h : readCsvTable (extract_data input) with
  | none => rfl
  | some df => rfl

/-- C5 witness: idempotence at the scenario input over a prior store. -/
theorem c5_witness :
    runPipeline scenarioInput (runPipeline scenarioInput priorStore) =
      runPipeline scenarioInput priorStore :=
  c5_pipeline_idempotent scenarioInput priorStore

/-- C6 counterexample: a Loader run that exits with its connection not
closed (the raise happens before the final `connection.close()` line,
which is the only close in the function). -/
theorem c6_counterexample :
    ¬ ((load_data sampleMedalRows sampleCountryRows priorStore).connectionOpen = false) :=
  by decide

/-- C6 amended: on every execution of the Loader as written, the store
connection is opened and never closed — the close call sits only on the
success path, and every run raises the undefined-variable error before
reaching it. -/
theorem c6_amended_connection_left_open (medalRows : List MedalCountRow)
    (countryRows : List CountryCountRow) (db : Store) :
    (load_data medalRows countryRows db).connectionOpen = true :=
  rfl

/-- C6 witness: the amended statement at a concrete input. -/
theorem c6_witness :
    (load_data sampleMedalRows sampleCountryRows priorStore).connectionOpen = true :=
  c6_amended_connection_left_open sampleMedalRows sampleCountryRows priorStore

/-- C7 counterexample: a store in which both destination tables carry
their declared primary keys, and a run of the Loader after which
MedalCounts no longer does — the replace-mode write recreates the table
without the primary key, so the declared-key constraint is not an
invariant across runs. -/
theorem c7_counterexample :
    storeHasDeclaredPrimaryKeys priorStore = true ∧
    storeHasDeclaredPrimaryKeys
      (load_data sampleMedalRows sampleCountryRows priorStore).store = false :=
  ⟨rfl, rfl⟩

/-- C7 amended: the two CREATE statements declare the primary keys, but
no Loader run succeeds (undefined-variable error), and after any run the
MedalCounts table has been recreated by the replace-mode write without
its declared primary key. -/
theorem c7_amended_primary_key_dropped (medalRows : List MedalCountRow)
    (countryRows : List CountryCountRow) (db : Store) :
    (load_data medalRows countryRows db).store.medalCounts =
      some { hasDeclaredPrimaryKey := false, rows := medalRows } ∧
    (load_data medalRows countryRows db).outcome =
      Except.error (LoadError.nameErrorUndefined "create_country_table_query") :=
  ⟨rfl, rfl⟩

/-- C7 witness: the amended statement at a concrete input. -/
theorem c7_witness :
    (load_data sampleMedalRows sampleCountryRows priorStore).store.medalCounts =
      some { hasDeclaredPrimaryKey := false, rows := sampleMedalRows } :=
  (c7_amended_primary_key_dropped sampleMedalRows sampleCountryRows priorStore).1

/-- C8: the spec's concrete scenario — the three (2012, Summer) records
yield exactly the MedalCount row (2012, Summer, USA, 2) and exactly the
CountryCount row (2012, Summer, 1). -/
theorem c8_scenario :
    transform_data scenarioInput =
      ([⟨2012, "Summer", "USA", 2⟩], [⟨2012, "Summer", 1⟩]) := by
  decide

/-- C9: for every well-formed input file, the intermediate artifact
written by the Extractor contains all input records unchanged — reading
it back yields exactly the input record list. -/
theorem c9_extract_roundtrip (input : List RawRecord)
    (h : ∀ r ∈ input, wfRecord r) :
    readCsvTable (extract_data input) = some input :=
  readCsvTable_extract input h

/-- C9 witness: the round trip at a concrete two-record input, one record
with an absent medal and an extra passthrough column. -/
theorem c9_witness : readCsvTable (extract_data sampleDfC9) = some sampleDfC9 :=
  c9_extract_roundtrip sampleDfC9 (by decide)

/-- C10: the aggregate data is key-unique by construction, independently
of any table constraint: MedalCount rows have pairwise-distinct
(year, season, noc) and CountryCount rows pairwise-distinct
(year, season). -/
theorem c10_aggregates_key_unique (df : List RawRecord) :
    ((transform_data df).1.map (fun m => (m.year, m.season, m.noc))).Nodup ∧
    ((transform_data df).2.map (fun m => (m.year, m.season))).Nodup :=
  ⟨medalCountsOf_keys_nodup df, countryCountsOf_keys_nodup df⟩

/-- C10 witness: key uniqueness at the scenario input. -/
theorem c10_witness :
    ((transform_data scenarioInput).1.map (fun m => (m.year, m.season, m.noc))).Nodup :=
  (c10_aggregates_key_unique scenarioInput).1

end AirflowEtl
